import Mathlib

/-!
Shallow embedding of the reddit-agent repository (src/ai_agent.py and
src/streamlit_ui.py) and verification of its specification claims.

Conventions of the embedding:
* Python strings whose character-level slicing matters (comment bodies,
  truncated with `[:1800]`) are modelled as `List Char`; other strings are
  `String`.
* The praw SDK is external to the repository.  It is modelled as an
  environment `RedditEnv`: the outcome of the `praw.Reddit(...)` constructor
  (which, per SDK semantics, may raise — e.g. `client_id=None` raises
  `MissingRequiredAttributeException`) and the result lists produced by the
  two search endpoints.  Iterating a search listing performs the outbound
  HTTP request, so each adapter records the number of outbound calls it
  performed in `AdapterRun.outboundCalls`.
* Python exceptions are modelled with `Except`: a raised exception is an
  `Except.error` value propagating to the caller.
-/

namespace RedditAgent

/-- Dependencies dataclass `Deps` of ai_agent.py.  The `client` field (an
httpx.AsyncClient handle) is never used by the adapters; its open/closed
lifecycle is modelled by the `clientOpen` flag of the UI state below. -/
structure Deps where
  reddit_client_id : Option String
  reddit_client_secret : Option String
deriving DecidableEq

/-- Exception raised by the praw SDK. -/
inductive PrawError where
  | missingRequiredAttribute (name : String)
  | other (msg : String)
deriving DecidableEq

/-- Model of a praw subreddit object as used by `find_subreddits`. -/
structure Subreddit where
  display_name : String
deriving DecidableEq

/-- Model of a praw comment object: `comment.author` is `None` for deleted
authors, hence `Option String`; the body is a character sequence because
the code slices it with `comment.body[:1800]`. -/
structure RedditComment where
  author : Option String
  score : Int
  body : List Char
deriving DecidableEq

/-- One element of `post.comments.list()`: praw flattens the comment tree
into `Comment` objects and `MoreComments` placeholders; the code branches
on `isinstance(comment, praw.models.Comment)`. -/
inductive CommentNode where
  | comment (c : RedditComment)
  | more
deriving DecidableEq

/-- Model of a praw submission object as used by `search_reddit`.
`selftext` is the empty string for posts without body text (the code tests
`if not post.selftext`). -/
structure Post where
  title : String
  subreddit : String
  score : Int
  num_comments : Int
  selftext : String
  url : String
  comments : List CommentNode
deriving DecidableEq

/-- Environment modelling the praw SDK, external to the repository:
`ctor` is the outcome of `praw.Reddit(client_id=..., client_secret=...,
user_agent=...)` as a function of the two credentials (the real SDK raises
`MissingRequiredAttributeException` when `client_id` is `None`);
`subredditSearch` gives the full result stream of
`reddit.subreddits.search(query, ...)` and `postSearch` the stream of
`reddit.subreddit(sub).search(query, ...)`; the `limit=5` argument passed
by the code caps each stream via `List.take`. -/
structure RedditEnv where
  ctor : Option String → Option String → Except PrawError Unit
  subredditSearch : String → List Subreddit
  postSearch : String → String → List Post

/-- Outcome of one adapter invocation: the returned value or the raised
exception, together with the number of outbound network calls performed
(iterating a praw search listing is one HTTP request; fetching one post's
comment list is another). -/
structure AdapterRun (α : Type) where
  result : Except PrawError α
  outboundCalls : Nat

/-- Return value `{"subreddit": subreddit.display_name}` of
`find_subreddits`. -/
structure SubredditDict where
  subreddit : String
deriving DecidableEq

/-- Embedding of `find_subreddits` (ai_agent.py lines 160-180): construct
the praw client, then `for subreddit in reddit.subreddits.search(query,
limit=5): return {"subreddit": subreddit.display_name}`.  When the search
yields nothing the `for` body never runs and the function returns Python's
implicit `None`, modelled as `Option.none`.  There is no credential check:
the constructor outcome and the search are reached unconditionally. -/
def find_subreddits (env : RedditEnv) (deps : Deps) (query : String) :
    AdapterRun (Option SubredditDict) :=
  match env.ctor deps.reddit_client_id deps.reddit_client_secret with
  | Except.error e => { result := Except.error e, outboundCalls := 0 }
  | Except.ok _ =>
    match (env.subredditSearch query).take 5 with
    | [] => { result := Except.ok none, outboundCalls := 1 }
    | s :: _ =>
      { result := Except.ok (some { subreddit := s.display_name })
        outboundCalls := 1 }

/-- Character sequence of the literal `"[removed]"` compared against
comment bodies. -/
def removedBody : List Char := "[removed]".toList

/-- Sort key used by `search_reddit`:
`comment.score if isinstance(comment, praw.models.Comment) else 0`. -/
def commentSortKey : CommentNode → Int
  | CommentNode.comment c => c.score
  | CommentNode.more => 0

/-- One processed comment dictionary
`{"author": ..., "score": ..., "body": comment.body[:1800]}`. -/
structure ProcessedComment where
  author : Option String
  score : Int
  body : List Char
deriving DecidableEq

/-- Insertion step of a stable descending sort by an integer key: keep
walking past elements with a strictly larger key, then place `x` (so
elements with an equal key that were earlier in the list stay in front of
`x`). -/
def insertByKeyDesc {α : Type} (key : α → Int) (x : α) : List α → List α
  | [] => [x]
  | y :: ys =>
    if key x < key y then y :: insertByKeyDesc key x ys else x :: y :: ys

/-- Stable descending sort by an integer key, the semantics of CPython's
`sorted(..., key=..., reverse=True)` (descending order; elements with
equal keys keep their original relative order). -/
def sortByKeyDesc {α : Type} (key : α → Int) (l : List α) : List α :=
  l.foldr (insertByKeyDesc key) []

/-- Embedding of the comment processing in `search_reddit` (ai_agent.py
lines 210-225): sort the flattened comment list by score descending
(stable, as CPython's `sorted(..., reverse=True)`), keep only `Comment`
instances whose body differs from `"[removed]"`, truncate each body to
1800 characters, and take the first 8. -/
def processComments (nodes : List CommentNode) : List ProcessedComment :=
  let sortedNodes := sortByKeyDesc commentSortKey nodes
  (sortedNodes.filterMap (fun n =>
    match n with
    | CommentNode.comment c =>
      if c.body ≠ removedBody then
        some { author := c.author, score := c.score, body := c.body.take 1800 }
      else none
    | CommentNode.more => none)).take 8

/-- One processed post dictionary appended to `result_list`. -/
structure ProcessedPost where
  title : String
  subreddit : String
  score : Int
  num_comments : Int
  selftext : String
  url : String
  comments : List ProcessedComment
deriving DecidableEq

/-- Return value `{"results": result_list}` of `search_reddit`. -/
structure SearchResults where
  results : List ProcessedPost
deriving DecidableEq

/-- Embedding of `search_reddit` (ai_agent.py lines 182-239): construct the
praw client, search the given subreddit with `limit=5`, skip posts whose
`selftext` is empty (`if not post.selftext: continue`), process each kept
post's comments, and return `{"results": result_list}`.  In Python the
`subreddit` parameter defaults to `"all"`; the embedding passes it
explicitly.  Outbound calls: one for the search listing plus one
`post.comments.list()` fetch per retrieved post. -/
def search_reddit (env : RedditEnv) (deps : Deps) (query : String)
    (subreddit : String) : AdapterRun SearchResults :=
  match env.ctor deps.reddit_client_id deps.reddit_client_secret with
  | Except.error e => { result := Except.error e, outboundCalls := 0 }
  | Except.ok _ =>
    let search_results := (env.postSearch subreddit query).take 5
    let result_list := search_results.filterMap (fun post =>
      if post.selftext = "" then none
      else some
        { title := post.title
          subreddit := post.subreddit
          score := post.score
          num_comments := post.num_comments
          selftext := post.selftext
          url := post.url
          comments := processComments post.comments })
    { result := Except.ok { results := result_list }
      outboundCalls := 1 + search_results.length }

/-- Message Part (pydantic_ai.messages part kinds handled by
streamlit_ui.py): system-prompt, user-prompt, text, tool-call,
tool-return, retry-prompt.  A tool-call Part carries a call id, tool name
and JSON argument payload; a tool-return Part carries the call id, tool
name and result payload. -/
inductive Part where
  | systemPrompt (content : String)
  | userPrompt (content : String)
  | text (content : String)
  | toolCall (tool_call_id : String) (tool_name : String) (args_json : String)
  | toolReturn (tool_call_id : String) (tool_name : String) (content : String)
  | retryPrompt (content : String)
deriving DecidableEq

/-- Check for part kind `user-prompt`. -/
def Part.isUserPrompt : Part → Bool
  | Part.userPrompt _ => true
  | _ => false

/-- Check for part kind `tool-call`. -/
def Part.isToolCall : Part → Bool
  | Part.toolCall _ _ _ => true
  | _ => false

/-- Check for part kind `tool-return`. -/
def Part.isToolReturn : Part → Bool
  | Part.toolReturn _ _ _ => true
  | _ => false

/-- One entry of `st.session_state.messages`: a pydantic_ai ModelRequest
or ModelResponse, each carrying a list of parts. -/
inductive Msg where
  | request (ps : List Part)
  | response (ps : List Part)
deriving DecidableEq

/-- Parts of a message (both ModelRequest and ModelResponse expose
`.parts`). -/
def Msg.parts : Msg → List Part
  | Msg.request ps => ps
  | Msg.response ps => ps

/-- UI session state of streamlit_ui.py: `st.session_state.messages`,
`st.session_state.tool_calls` (a dict from tool_call_id to the parsed
arguments, modelled as an association list updated with dict-assignment
semantics), and the open/closed status of the per-run httpx.AsyncClient
held in `deps.client`. -/
structure UiState where
  messages : List Msg
  tool_calls : List (String × String)
  clientOpen : Bool
deriving DecidableEq

/-- Fresh session state: `main` starts with empty `messages` and
`tool_calls`; no client exists yet. -/
def initState : UiState :=
  { messages := [], tool_calls := [], clientOpen := false }

/-- Outcome of one agent run (`ai_agent.run_stream` together with its
streamed text), external to the UI code: either the stream completes,
yielding the accumulated streamed text and the run's `new_messages()`
list, or the run raises somewhere inside the `async with` block, with
only a partial streamed buffer accumulated so far. -/
inductive RunOutcome where
  | success (streamedText : String) (newMessages : List Msg)
  | raised (partialStreamedText : String)

/-- Check for a completed run. -/
def RunOutcome.isSuccess : RunOutcome → Bool
  | RunOutcome.success _ _ => true
  | RunOutcome.raised _ => false

/-- Embedding of `display_message_part` (streamlit_ui.py lines 41-72)
restricted to its effect on session state: a tool-call part stores its
parsed arguments under its call id in `st.session_state.tool_calls`
(Python dict assignment: overwrite any previous binding); every other
part kind only renders and leaves the state unchanged. -/
def display_message_part (st : UiState) (p : Part) : UiState :=
  match p with
  | Part.toolCall id _ args =>
    { st with
      tool_calls := (st.tool_calls.filter (fun kv => kv.1 ≠ id)) ++ [(id, args)] }
  | _ => st

/-- Python `try ... finally`: run the body (which returns either a value
or a raised exception, threading the state), then run the finaliser on
the resulting state in both cases, propagating the body's outcome. -/
def tryFinally {α σ : Type} (body : σ → Except String α × σ) (fin : σ → σ)
    (s : σ) : Except String α × σ :=
  let r := body s
  (r.1, fin r.2)

/-- The `message_history` argument passed to `ai_agent.run_stream`:
`st.session_state.messages[:-1]`, i.e. everything before the newest
message. -/
def messageHistoryArg (st : UiState) : List Msg :=
  st.messages.dropLast

/-- The invocation `ai_agent.run_stream(user_input, deps=deps,
message_history=st.session_state.messages[:-1])`: the agent is applied to
the newest user input as prompt and to everything but the newest message
as history. -/
def runStreamCall (agent : String → List Msg → RunOutcome)
    (user_input : String) (st : UiState) : RunOutcome :=
  agent user_input (messageHistoryArg st)

/-- Body of the `try` block of `run_agent_with_streaming` (streamlit_ui.py
lines 89-128), given the agent as a function from prompt and message
history to a run outcome.  On completion: append the final response
`ModelResponse(parts=[TextPart(content=streamed_text)])`, extend the
history with the run's new messages filtered to exclude any message
having a user-prompt part, then display every tool-call / tool-return
part of the new messages (which records tool-call arguments in
`tool_calls`).  If the run raises, the local streamed buffer is discarded
and the exception propagates with the state untouched. -/
def runStreamBody (agent : String → List Msg → RunOutcome)
    (user_input : String) (st : UiState) : Except String Unit × UiState :=
  match runStreamCall agent user_input st with
  | RunOutcome.raised _ => (Except.error "run-level failure", st)
  | RunOutcome.success streamed_text newMessages =>
    let st1 :=
      { st with messages := st.messages ++ [Msg.response [Part.text streamed_text]] }
    let filtered_messages :=
      newMessages.filter (fun m => ! m.parts.any Part.isUserPrompt)
    let st2 := { st1 with messages := st1.messages ++ filtered_messages }
    let st3 := newMessages.foldl
      (fun s m =>
        (m.parts.filter (fun p => p.isToolCall || p.isToolReturn)).foldl
          display_message_part s)
      st2
    (Except.ok (), st3)

/-- Embedding of `run_agent_with_streaming` (streamlit_ui.py lines
75-130): build the per-run `Deps` with a fresh `httpx.AsyncClient()`
(client opened), run the streaming body inside `try`, and in `finally`
`await deps.client.aclose()` (client closed). -/
def run_agent_with_streaming (agent : String → List Msg → RunOutcome)
    (user_input : String) (st : UiState) : Except String Unit × UiState :=
  let stOpen := { st with clientOpen := true }
  tryFinally (runStreamBody agent user_input)
    (fun s => { s with clientOpen := false }) stOpen

/-- The append performed by `main` on a new user submission:
`st.session_state.messages.append(ModelRequest(parts=[UserPromptPart(content=user_input)]))`. -/
def appendUserTurn (st : UiState) (user_input : String) : UiState :=
  { st with
    messages := st.messages ++ [Msg.request [Part.userPrompt user_input]] }

/-- One iteration of `main` handling a user submission (streamlit_ui.py
lines 156-170): append the user turn, then run the agent with streaming
on that input. -/
def handle_user_input (agent : String → List Msg → RunOutcome)
    (st : UiState) (user_input : String) : Except String Unit × UiState :=
  run_agent_with_streaming agent user_input (appendUserTurn st user_input)

/-- Chat session continued from a given state: process the submissions in
order (each rerun of the script handles one submission). -/
def sessionFrom (agent : String → List Msg → RunOutcome) (st : UiState)
    (inputs : List String) : UiState :=
  inputs.foldl (fun s i => (handle_user_input agent s i).2) st

/-- A whole chat session: starting from the fresh state, process the
submissions in order. -/
def runSession (agent : String → List Msg → RunOutcome)
    (inputs : List String) : UiState :=
  sessionFrom agent initState inputs

/-- A user Turn of session history: a message carrying a user-prompt part
(this is exactly the criterion the code's `filtered_messages` filter
uses). -/
def isUserTurn (m : Msg) : Bool :=
  m.parts.any Part.isUserPrompt

/-- An assistant Turn of session history: a ModelResponse. -/
def isAssistantTurn : Msg → Bool
  | Msg.response _ => true
  | Msg.request _ => false

/-- Number of user Turns in a message list. -/
def userTurnCount (msgs : List Msg) : Nat :=
  (msgs.filter isUserTurn).length

/-- Number of assistant Turns in a message list. -/
def assistantTurnCount (msgs : List Msg) : Nat :=
  (msgs.filter isAssistantTurn).length

/-- The user-prompt contents occurring in a message list, in order. -/
def userPromptContents (msgs : List Msg) : List String :=
  msgs.flatMap (fun m => m.parts.filterMap (fun p =>
    match p with
    | Part.userPrompt c => some c
    | _ => none))

/-!
Helper lemmas about the stable descending sort and the comment
processing. -/

theorem mem_insertByKeyDesc {α : Type} (key : α → Int) (x a : α)
    (l : List α) : a ∈ insertByKeyDesc key x l ↔ a = x ∨ a ∈ l := by
  induction l with
  | nil => simp [insertByKeyDesc]
  | cons y ys ih =>
    simp only [insertByKeyDesc]
    by_cases h : key x < key y
    · rw [if_pos h]
      simp only [List.mem_cons, ih]
      tauto
    · rw [if_neg h]
      simp [List.mem_cons]

theorem pairwise_insertByKeyDesc {α : Type} (key : α → Int) (x : α)
    (l : List α) (h : l.Pairwise (fun a b => key b ≤ key a)) :
    (insertByKeyDesc key x l).Pairwise (fun a b => key b ≤ key a) := by
  induction l with
  | nil => simp [insertByKeyDesc]
  | cons y ys ih =>
    rw [List.pairwise_cons] at h
    obtain ⟨hy, hys⟩ := h
    simp only [insertByKeyDesc]
    by_cases hxy : key x < key y
    · rw [if_pos hxy, List.pairwise_cons]
      refine ⟨?_, ih hys⟩
      intro a ha
      rcases (mem_insertByKeyDesc key x a ys).mp ha with rfl | ha
      · exact le_of_lt hxy
      · exact hy a ha
    · rw [if_neg hxy, List.pairwise_cons]
      refine ⟨?_, List.pairwise_cons.mpr ⟨hy, hys⟩⟩
      intro a ha
      rcases List.mem_cons.mp ha with rfl | ha
      · exact le_of_not_lt hxy
      · exact le_trans (hy a ha) (le_of_not_lt hxy)

theorem pairwise_sortByKeyDesc {α : Type} (key : α → Int) (l : List α) :
    (sortByKeyDesc key l).Pairwise (fun a b => key b ≤ key a) := by
  induction l with
  | nil => exact List.Pairwise.nil
  | cons x xs ih => exact pairwise_insertByKeyDesc key x (sortByKeyDesc key xs) ih

theorem processComments_length_le (nodes : List CommentNode) :
    (processComments nodes).length ≤ 8 :=
  List.length_take_le 8 _

theorem processComments_mem (nodes : List CommentNode)
    (c : ProcessedComment) (hc : c ∈ processComments nodes) :
    ∃ rc : RedditComment, rc.body ≠ removedBody ∧ c.body = rc.body.take 1800 := by
  unfold processComments at hc
  have hc1 := List.mem_of_mem_take hc
  rw [List.mem_filterMap] at hc1
  obtain ⟨n, _, hfn⟩ := hc1
  cases n with
  | more => simp at hfn
  | comment rc =>
    simp only at hfn
    by_cases hb : rc.body ≠ removedBody
    · rw [if_pos hb] at hfn
      refine ⟨rc, hb, ?_⟩
      obtain rfl := Option.some.inj hfn
      rfl
    · rw [if_neg hb] at hfn
      simp at hfn

theorem removedBody_length : removedBody.length = 9 := by decide

theorem take_1800_ne_removedBody (b : List Char) (hb : b ≠ removedBody) :
    b.take 1800 ≠ removedBody := by
  intro h
  apply hb
  have hlen : (b.take 1800).length = removedBody.length := by rw [h]
  rw [List.length_take, removedBody_length] at hlen
  have hble : b.length ≤ 1800 := by omega
  rw [List.take_of_length_le hble] at h
  exact h

theorem processComments_sorted (nodes : List CommentNode) :
    (processComments nodes).Pairwise (fun a b => b.score ≤ a.score) := by
  unfold processComments
  apply List.Pairwise.sublist (List.take_sublist 8 _)
  rw [List.pairwise_filterMap]
  apply List.Pairwise.imp ?_ (pairwise_sortByKeyDesc commentSortKey nodes)
  intro a b hab pa hpa pb hpb
  cases a with
  | more => simp at hpa
  | comment ca =>
    cases b with
    | more => simp at hpb
    | comment cb =>
      simp only [Option.mem_def] at hpa hpb
      by_cases hba : ca.body ≠ removedBody
      · rw [if_pos hba] at hpa
        by_cases hbb : cb.body ≠ removedBody
        · rw [if_pos hbb] at hpb
          obtain rfl := Option.some.inj hpa
          obtain rfl := Option.some.inj hpb
          exact hab
        · rw [if_neg hbb] at hpb
          simp at hpb
      · rw [if_neg hba] at hpa
        simp at hpa

theorem search_reddit_ok (env : RedditEnv) (deps : Deps)
    (query subreddit : String) (r : SearchResults)
    (h : (search_reddit env deps query subreddit).result = Except.ok r) :
    r.results =
      ((env.postSearch subreddit query).take 5).filterMap (fun post =>
        if post.selftext = "" then none
        else some
          { title := post.title
            subreddit := post.subreddit
            score := post.score
            num_comments := post.num_comments
            selftext := post.selftext
            url := post.url
            comments := processComments post.comments }) := by
  unfold search_reddit at h
  cases hctor : env.ctor deps.reddit_client_id deps.reddit_client_secret with
  | error e => rw [hctor] at h; simp at h
  | ok u =>
    rw [hctor] at h
    simp only [Except.ok.injEq] at h
    rw [← h]

/-!
Concrete SDK environments and dependency bundles used to witness the
adapter theorems. -/

/-- A post with body text and a mixed comment list: a removed comment, a
`MoreComments` placeholder and two ordinary comments. -/
def postWithComments : Post :=
  { title := "how to meal prep"
    subreddit := "MealPrepSunday"
    score := 10
    num_comments := 4
    selftext := "useful body"
    url := "https://reddit.example/p1"
    comments :=
      [ CommentNode.comment { author := some "a", score := 5, body := "hi".toList }
      , CommentNode.comment { author := none, score := 9, body := "[removed]".toList }
      , CommentNode.more
      , CommentNode.comment { author := some "b", score := 7, body := "yo".toList } ] }

/-- A post without body text (empty `selftext`), which `search_reddit`
skips. -/
def postNoSelftext : Post :=
  { title := "link post"
    subreddit := "MealPrepSunday"
    score := 3
    num_comments := 0
    selftext := ""
    url := "https://reddit.example/p2"
    comments := [] }

/-- Concrete SDK environment mirroring praw's behaviour: the constructor
raises `MissingRequiredAttributeException` when `client_id` is `None` and
otherwise succeeds; the searches return fixed result streams. -/
def envPraw : RedditEnv :=
  { ctor := fun cid _ =>
      match cid with
      | none => Except.error (PrawError.missingRequiredAttribute "client_id")
      | some _ => Except.ok ()
    subredditSearch := fun _ =>
      [ { display_name := "python" }, { display_name := "learnpython" } ]
    postSearch := fun _ _ => [postWithComments, postNoSelftext] }

/-- SDK environment whose subreddit search yields no match. -/
def envNoMatch : RedditEnv :=
  { ctor := fun _ _ => Except.ok ()
    subredditSearch := fun _ => []
    postSearch := fun _ _ => [] }

/-- Dependencies with the required `reddit_client_id` credential missing. -/
def depsMissingId : Deps :=
  { reddit_client_id := none, reddit_client_secret := some "secret" }

/-- Dependencies with both credentials present. -/
def depsFull : Deps :=
  { reddit_client_id := some "id", reddit_client_secret := some "secret" }

/-- The results dictionary actually returned by `search_reddit` in the
witness environment. -/
def searchWitnessResults : SearchResults :=
  match (search_reddit envPraw depsFull "meal prep" "all").result with
  | Except.ok r => r
  | Except.error _ => { results := [] }

/-- First post of the witness results. -/
def postProcessedWitness : ProcessedPost :=
  searchWitnessResults.results.headD
    { title := "", subreddit := "", score := 0, num_comments := 0
      selftext := "", url := "", comments := [] }

/-- First processed comment of the first witness post. -/
def commentProcessedWitness : ProcessedComment :=
  postProcessedWitness.comments.headD { author := none, score := 0, body := [] }

/-!
Claim theorems for the lookup adapters. -/

/-- Claim C1, counterexample: a concrete invocation of each adapter with
`reddit_client_id = None` against the praw-modelled SDK raises the SDK
constructor's exception to the caller instead of returning a placeholder
explanatory string, refuting the claim that such invocations never raise
and return a placeholder string. -/
theorem adapters_missing_credentials_raise :
    (find_subreddits envPraw depsMissingId "python").result =
      Except.error (PrawError.missingRequiredAttribute "client_id") ∧
    (search_reddit envPraw depsMissingId "python" "all").result =
      Except.error (PrawError.missingRequiredAttribute "client_id") :=
  ⟨rfl, rfl⟩

/-- Claim C1, amended: the adapters perform no credential check at all.
With a missing credential each invocation either propagates an exception
raised by the SDK or performs at least one outbound call; no placeholder
string is ever returned (the adapters' return values are dictionaries or
`None` by type). -/
theorem adapters_no_credential_check (env : RedditEnv) (deps : Deps)
    (query subreddit : String)
    (hmissing : deps.reddit_client_id = none ∨
      deps.reddit_client_secret = none) :
    ((find_subreddits env deps query).result.isOk = false ∨
      1 ≤ (find_subreddits env deps query).outboundCalls) ∧
    ((search_reddit env deps query subreddit).result.isOk = false ∨
      1 ≤ (search_reddit env deps query subreddit).outboundCalls) := by
  clear hmissing
  constructor
  · unfold find_subreddits
    cases hctor : env.ctor deps.reddit_client_id deps.reddit_client_secret with
    | error e => left; rfl
    | ok u =>
      right
      cases h5 : (env.subredditSearch query).take 5 with
      | nil => exact le_refl 1
      | cons s rest => exact le_refl 1
  · unfold search_reddit
    cases hctor : env.ctor deps.reddit_client_id deps.reddit_client_secret with
    | error e => left; rfl
    | ok u => right; exact Nat.le_add_right 1 _

/-- Claim C1, witness for the amended theorem at a concrete input. -/
theorem adapters_no_credential_check_witness :
    depsMissingId.reddit_client_id = none ∧
    (((find_subreddits envPraw depsMissingId "python").result.isOk = false ∨
      1 ≤ (find_subreddits envPraw depsMissingId "python").outboundCalls) ∧
     ((search_reddit envPraw depsMissingId "python" "all").result.isOk = false ∨
      1 ≤ (search_reddit envPraw depsMissingId "python" "all").outboundCalls)) :=
  ⟨rfl, adapters_no_credential_check envPraw depsMissingId "python" "all"
    (Or.inl rfl)⟩

/-- Claim C3: every post of a `search_reddit` result has at most 8
processed comments, and no processed comment has body `[removed]`. -/
theorem search_reddit_removed_excluded (env : RedditEnv) (deps : Deps)
    (query subreddit : String) (r : SearchResults) (p : ProcessedPost)
    (c : ProcessedComment)
    (h : (search_reddit env deps query subreddit).result = Except.ok r)
    (hp : p ∈ r.results) (hc : c ∈ p.comments) :
    p.comments.length ≤ 8 ∧ c.body ≠ removedBody := by
  rw [search_reddit_ok env deps query subreddit r h, List.mem_filterMap] at hp
  obtain ⟨post, _, hsome⟩ := hp
  by_cases hst : post.selftext = ""
  · rw [if_pos hst] at hsome; simp at hsome
  · rw [if_neg hst] at hsome
    obtain rfl := Option.some.inj hsome
    refine ⟨processComments_length_le post.comments, ?_⟩
    obtain ⟨rc, hrb, hcb⟩ := processComments_mem post.comments c hc
    rw [hcb]
    exact take_1800_ne_removedBody rc.body hrb

/-- Claim C3, witness at a concrete input. -/
theorem search_reddit_removed_excluded_witness :
    (search_reddit envPraw depsFull "meal prep" "all").result =
      Except.ok searchWitnessResults ∧
    postProcessedWitness ∈ searchWitnessResults.results ∧
    commentProcessedWitness ∈ postProcessedWitness.comments ∧
    (postProcessedWitness.comments.length ≤ 8 ∧
      commentProcessedWitness.body ≠ removedBody) :=
  ⟨rfl, by decide, by decide,
    search_reddit_removed_excluded envPraw depsFull "meal prep" "all"
      searchWitnessResults postProcessedWitness commentProcessedWitness
      rfl (by decide) (by decide)⟩

/-- Claim C4: the processed comments of every post of a `search_reddit`
result are in non-increasing score order, and every processed comment
body has at most 1800 characters. -/
theorem search_reddit_comments_sorted_and_truncated (env : RedditEnv)
    (deps : Deps) (query subreddit : String) (r : SearchResults)
    (p : ProcessedPost) (c : ProcessedComment)
    (h : (search_reddit env deps query subreddit).result = Except.ok r)
    (hp : p ∈ r.results) (hc : c ∈ p.comments) :
    p.comments.Pairwise (fun a b => b.score ≤ a.score) ∧
      c.body.length ≤ 1800 := by
  rw [search_reddit_ok env deps query subreddit r h, List.mem_filterMap] at hp
  obtain ⟨post, _, hsome⟩ := hp
  by_cases hst : post.selftext = ""
  · rw [if_pos hst] at hsome; simp at hsome
  · rw [if_neg hst] at hsome
    obtain rfl := Option.some.inj hsome
    refine ⟨processComments_sorted post.comments, ?_⟩
    obtain ⟨rc, _, hcb⟩ := processComments_mem post.comments c hc
    rw [hcb]
    exact List.length_take_le 1800 rc.body

/-- Claim C4, witness at a concrete input. -/
theorem search_reddit_comments_sorted_and_truncated_witness :
    (search_reddit envPraw depsFull "meal prep" "all").result =
      Except.ok searchWitnessResults ∧
    postProcessedWitness ∈ searchWitnessResults.results ∧
    commentProcessedWitness ∈ postProcessedWitness.comments ∧
    (postProcessedWitness.comments.Pairwise (fun a b => b.score ≤ a.score) ∧
      commentProcessedWitness.body.length ≤ 1800) :=
  ⟨rfl, by decide, by decide,
    search_reddit_comments_sorted_and_truncated envPraw depsFull "meal prep"
      "all" searchWitnessResults postProcessedWitness commentProcessedWitness
      rfl (by decide) (by decide)⟩

/-- Claim C5: a `search_reddit` result contains at most 5 posts, and
every included post has non-empty `selftext`. -/
theorem search_reddit_five_posts_with_selftext (env : RedditEnv)
    (deps : Deps) (query subreddit : String) (r : SearchResults)
    (p : ProcessedPost)
    (h : (search_reddit env deps query subreddit).result = Except.ok r)
    (hp : p ∈ r.results) :
    r.results.length ≤ 5 ∧ p.selftext ≠ "" := by
  rw [search_reddit_ok env deps query subreddit r h] at hp ⊢
  constructor
  · exact le_trans (List.length_filterMap_le _ _) (List.length_take_le 5 _)
  · rw [List.mem_filterMap] at hp
    obtain ⟨post, _, hsome⟩ := hp
    by_cases hst : post.selftext = ""
    · rw [if_pos hst] at hsome; simp at hsome
    · rw [if_neg hst] at hsome
      obtain rfl := Option.some.inj hsome
      exact hst

/-- Claim C5, witness at a concrete input. -/
theorem search_reddit_five_posts_with_selftext_witness :
    (search_reddit envPraw depsFull "meal prep" "all").result =
      Except.ok searchWitnessResults ∧
    postProcessedWitness ∈ searchWitnessResults.results ∧
    (searchWitnessResults.results.length ≤ 5 ∧
      postProcessedWitness.selftext ≠ "") :=
  ⟨rfl, by decide,
    search_reddit_five_posts_with_selftext envPraw depsFull "meal prep" "all"
      searchWitnessResults postProcessedWitness rfl (by decide)⟩

/-- Claim C9: when the subreddit search yields at least one result,
`find_subreddits` returns the dictionary containing the display name of
the first matching subreddit only. -/
theorem find_subreddits_first_match (env : RedditEnv) (deps : Deps)
    (query : String) (s : Subreddit) (rest : List Subreddit)
    (hctor : env.ctor deps.reddit_client_id deps.reddit_client_secret =
      Except.ok ())
    (hs : env.subredditSearch query = s :: rest) :
    (find_subreddits env deps query).result =
      Except.ok (some { subreddit := s.display_name }) := by
  unfold find_subreddits
  rw [hctor, hs, List.take_succ_cons]

/-- Claim C9, witness at a concrete input. -/
theorem find_subreddits_first_match_witness :
    envPraw.ctor depsFull.reddit_client_id depsFull.reddit_client_secret =
      Except.ok () ∧
    envPraw.subredditSearch "python" =
      { display_name := "python" } :: [{ display_name := "learnpython" }] ∧
    (find_subreddits envPraw depsFull "python").result =
      Except.ok (some { subreddit := "python" }) :=
  ⟨rfl, rfl,
    find_subreddits_first_match envPraw depsFull "python"
      { display_name := "python" } [{ display_name := "learnpython" }]
      rfl rfl⟩

/-- Claim C10: when the subreddit search yields no result, the `for`
body of `find_subreddits` never runs and the function returns Python's
implicit `None` instead of a dictionary, despite its declared `Dict`
return type. -/
theorem find_subreddits_empty_returns_none (env : RedditEnv) (deps : Deps)
    (query : String)
    (hctor : env.ctor deps.reddit_client_id deps.reddit_client_secret =
      Except.ok ())
    (hs : env.subredditSearch query = []) :
    (find_subreddits env deps query).result = Except.ok none := by
  unfold find_subreddits
  rw [hctor, hs]
  rfl

/-- Claim C10, witness at a concrete input. -/
theorem find_subreddits_empty_returns_none_witness :
    envNoMatch.ctor depsFull.reddit_client_id depsFull.reddit_client_secret =
      Except.ok () ∧
    envNoMatch.subredditSearch "python" = [] ∧
    (find_subreddits envNoMatch depsFull "python").result = Except.ok none :=
  ⟨rfl, rfl, find_subreddits_empty_returns_none envNoMatch depsFull "python"
    rfl rfl⟩

/-!
Helper lemmas about the chat session loop. -/

theorem display_message_part_messages (st : UiState) (p : Part) :
    (display_message_part st p).messages = st.messages := by
  cases p <;> rfl

theorem display_foldl_parts_messages (ps : List Part) (st : UiState) :
    (ps.foldl display_message_part st).messages = st.messages := by
  induction ps generalizing st with
  | nil => rfl
  | cons p ps ih => rw [List.foldl_cons, ih, display_message_part_messages]

theorem display_foldl_msgs_messages (ms : List Msg) (st : UiState) :
    ((ms.foldl (fun s m =>
      (m.parts.filter (fun p => p.isToolCall || p.isToolReturn)).foldl
        display_message_part s) st).messages) = st.messages := by
  induction ms generalizing st with
  | nil => rfl
  | cons m ms ih => rw [List.foldl_cons, ih, display_foldl_parts_messages]

theorem run_raised_eq (agent : String → List Msg → RunOutcome)
    (user_input : String) (st : UiState) (t : String)
    (h : runStreamCall agent user_input { st with clientOpen := true } =
      RunOutcome.raised t) :
    run_agent_with_streaming agent user_input st =
      (Except.error "run-level failure", { st with clientOpen := false }) := by
  simp only [run_agent_with_streaming, tryFinally, runStreamBody]
  rw [h]

theorem run_success_messages (agent : String → List Msg → RunOutcome)
    (user_input : String) (st : UiState) (t : String) (ms : List Msg)
    (h : runStreamCall agent user_input { st with clientOpen := true } =
      RunOutcome.success t ms) :
    ((run_agent_with_streaming agent user_input st).2).messages =
      (st.messages ++ [Msg.response [Part.text t]]) ++
        ms.filter (fun m => ! m.parts.any Part.isUserPrompt) := by
  simp only [run_agent_with_streaming, tryFinally, runStreamBody]
  rw [h]
  simp only [display_foldl_msgs_messages]

theorem handle_raised_eq (agent : String → List Msg → RunOutcome)
    (st : UiState) (user_input t : String)
    (h : agent user_input st.messages = RunOutcome.raised t) :
    handle_user_input agent st user_input =
      (Except.error "run-level failure",
        { appendUserTurn st user_input with clientOpen := false }) := by
  have h' : runStreamCall agent user_input
      { appendUserTurn st user_input with clientOpen := true } =
      RunOutcome.raised t := by
    show agent user_input
      ((st.messages ++ [Msg.request [Part.userPrompt user_input]]).dropLast) =
      RunOutcome.raised t
    rw [List.dropLast_concat]
    exact h
  unfold handle_user_input
  exact run_raised_eq agent user_input (appendUserTurn st user_input) t h'

theorem handle_success_messages (agent : String → List Msg → RunOutcome)
    (st : UiState) (user_input t : String) (ms : List Msg)
    (h : agent user_input st.messages = RunOutcome.success t ms) :
    ((handle_user_input agent st user_input).2).messages =
      ((st.messages ++ [Msg.request [Part.userPrompt user_input]]) ++
        [Msg.response [Part.text t]]) ++
        ms.filter (fun m => ! m.parts.any Part.isUserPrompt) := by
  have h' : runStreamCall agent user_input
      { appendUserTurn st user_input with clientOpen := true } =
      RunOutcome.success t ms := by
    show agent user_input
      ((st.messages ++ [Msg.request [Part.userPrompt user_input]]).dropLast) =
      RunOutcome.success t ms
    rw [List.dropLast_concat]
    exact h
  unfold handle_user_input
  rw [run_success_messages agent user_input (appendUserTurn st user_input)
    t ms h']
  rfl

theorem userTurnCount_append (a b : List Msg) :
    userTurnCount (a ++ b) = userTurnCount a + userTurnCount b := by
  unfold userTurnCount
  rw [List.filter_append, List.length_append]

theorem assistantTurnCount_append (a b : List Msg) :
    assistantTurnCount (a ++ b) =
      assistantTurnCount a + assistantTurnCount b := by
  unfold assistantTurnCount
  rw [List.filter_append, List.length_append]

theorem userPromptContents_append (a b : List Msg) :
    userPromptContents (a ++ b) =
      userPromptContents a ++ userPromptContents b := by
  unfold userPromptContents
  rw [List.flatMap_append]

theorem filtered_no_user_turns (ms : List Msg) :
    userTurnCount (ms.filter (fun m => ! m.parts.any Part.isUserPrompt)) = 0 := by
  unfold userTurnCount
  rw [List.length_eq_zero, List.filter_eq_nil_iff]
  intro m hm
  have h2 := (List.mem_filter.mp hm).2
  rw [Bool.not_eq_true'] at h2
  unfold isUserTurn
  simp [h2]

theorem filtered_no_user_contents (ms : List Msg) :
    userPromptContents
      (ms.filter (fun m => ! m.parts.any Part.isUserPrompt)) = [] := by
  unfold userPromptContents
  rw [List.flatMap_eq_nil_iff]
  intro m hm
  have h2 := (List.mem_filter.mp hm).2
  rw [Bool.not_eq_true'] at h2
  rw [List.filterMap_eq_nil_iff]
  intro p hp
  have hfalse : Part.isUserPrompt p = false := by
    rw [List.any_eq_false] at h2
    have h3 := h2 p hp
    simpa using h3
  cases p with
  | userPrompt c => simp [Part.isUserPrompt] at hfalse
  | systemPrompt c => rfl
  | text c => rfl
  | toolCall a b c => rfl
  | toolReturn a b c => rfl
  | retryPrompt c => rfl

theorem sessionFrom_cons (agent : String → List Msg → RunOutcome)
    (st : UiState) (i : String) (is : List String) :
    sessionFrom agent st (i :: is) =
      sessionFrom agent ((handle_user_input agent st i).2) is := rfl

theorem sessionFrom_counts (agent : String → List Msg → RunOutcome)
    (inputs : List String) (st : UiState)
    (hsucc : ∀ p h, (agent p h).isSuccess = true) :
    userTurnCount (sessionFrom agent st inputs).messages =
      userTurnCount st.messages + inputs.length ∧
    userPromptContents (sessionFrom agent st inputs).messages =
      userPromptContents st.messages ++ inputs ∧
    assistantTurnCount st.messages + inputs.length ≤
      assistantTurnCount (sessionFrom agent st inputs).messages := by
  induction inputs generalizing st with
  | nil => simp [sessionFrom]
  | cons i is ih =>
    cases hrun : agent i st.messages with
    | raised t =>
      exfalso
      have hx := hsucc i st.messages
      rw [hrun] at hx
      simp [RunOutcome.isSuccess] at hx
    | success t ms =>
      have hmsg := handle_success_messages agent st i t ms hrun
      obtain ⟨ih1, ih2, ih3⟩ := ih ((handle_user_input agent st i).2)
      rw [sessionFrom_cons]
      refine ⟨?_, ?_, ?_⟩
      · rw [ih1, hmsg, userTurnCount_append, userTurnCount_append,
          userTurnCount_append, filtered_no_user_turns]
        have hu : userTurnCount [Msg.request [Part.userPrompt i]] = 1 := rfl
        have hr : userTurnCount [Msg.response [Part.text t]] = 0 := rfl
        rw [hu, hr, List.length_cons]
        omega
      · rw [ih2, hmsg, userPromptContents_append, userPromptContents_append,
          userPromptContents_append, filtered_no_user_contents]
        have hu : userPromptContents [Msg.request [Part.userPrompt i]] = [i] :=
          rfl
        have hr : userPromptContents [Msg.response [Part.text t]] = [] := rfl
        rw [hu, hr]
        simp
      · refine le_trans ?_ ih3
        rw [hmsg, assistantTurnCount_append, assistantTurnCount_append,
          assistantTurnCount_append]
        have hu : assistantTurnCount [Msg.request [Part.userPrompt i]] = 0 :=
          rfl
        have hr : assistantTurnCount [Msg.response [Part.text t]] = 1 := rfl
        rw [hu, hr, List.length_cons]
        omega

/-!
Claim theorems for the chat session loop. -/

/-- Agent model used by the session witnesses: every run completes,
streaming "ok", after one tool-call round trip.  The run's new messages
are its user-prompt request, the tool-call response, the tool-return
request and the final response — the shape pydantic_ai returns from
`new_messages()` for a run of this agent, whose system prompt mandates a
search tool call on every query. -/
def agentEcho : String → List Msg → RunOutcome := fun _ _ =>
  RunOutcome.success "ok"
    [ Msg.request [Part.userPrompt "hi"]
    , Msg.response [Part.toolCall "call1" "search_reddit" "query=hi"]
    , Msg.request [Part.toolReturn "call1" "search_reddit" "results"]
    , Msg.response [Part.text "ok"] ]

/-- Agent model whose run always raises. -/
def agentFail : String → List Msg → RunOutcome := fun _ _ =>
  RunOutcome.raised "oops"

/-- Claim C2, counterexample: after one submission followed by a
completed run with one tool call, the history holds exactly one user
Turn but three assistant Turns — the explicitly appended final response,
plus the run's tool-call response and the final response again, both
re-appended via the filtered `new_messages()` — so "at most N assistant
Turns" fails at N = 1. -/
theorem session_assistant_turns_exceed_submissions :
    (∀ p h, (agentEcho p h).isSuccess = true) ∧
    userTurnCount (runSession agentEcho ["hi"]).messages = 1 ∧
    ¬ assistantTurnCount (runSession agentEcho ["hi"]).messages ≤ 1 :=
  ⟨fun _ _ => rfl, by decide, by decide⟩

/-- Claim C2, amended: after N user submissions each followed by a
completed run, the session history contains exactly N user Turns whose
contents list the submissions in strict order, and at least N assistant
Turns; the assistant-Turn count can exceed N because each completed run
appends the final response and then every non-user message of the run
(the final response again, plus any tool-call responses and tool-return
requests). -/
theorem session_user_turns_exact (agent : String → List Msg → RunOutcome)
    (inputs : List String)
    (hsucc : ∀ p h, (agent p h).isSuccess = true) :
    userTurnCount (runSession agent inputs).messages = inputs.length ∧
    userPromptContents (runSession agent inputs).messages = inputs ∧
    inputs.length ≤ assistantTurnCount (runSession agent inputs).messages := by
  obtain ⟨h1, h2, h3⟩ := sessionFrom_counts agent inputs initState hsucc
  have hu0 : userTurnCount initState.messages = 0 := rfl
  have ha0 : assistantTurnCount initState.messages = 0 := rfl
  have hc0 : userPromptContents initState.messages = [] := rfl
  unfold runSession
  refine ⟨?_, ?_, ?_⟩
  · rw [h1, hu0]
    omega
  · rw [h2, hc0, List.nil_append]
  · omega

/-- Claim C2, witness for the amended theorem at a concrete session of
two submissions. -/
theorem session_user_turns_exact_witness :
    (∀ p h, (agentEcho p h).isSuccess = true) ∧
    (userTurnCount (runSession agentEcho ["hi", "bye"]).messages =
        ["hi", "bye"].length ∧
      userPromptContents (runSession agentEcho ["hi", "bye"]).messages =
        ["hi", "bye"] ∧
      ["hi", "bye"].length ≤
        assistantTurnCount (runSession agentEcho ["hi", "bye"]).messages) :=
  ⟨fun _ _ => rfl,
    session_user_turns_exact agentEcho ["hi", "bye"] (fun _ _ => rfl)⟩

/-- Claim C6: on the agent invocation made by the chat session loop, the
prompt is the newest user submission and the message history passed as
context is exactly all prior Turns, so the sequence fed to the agent
(history followed by the prompt's user Turn) is the full session history,
whose last Turn is the newest user Turn. -/
theorem agent_fed_newest_user_turn_last
    (agent : String → List Msg → RunOutcome) (st : UiState)
    (user_input : String) :
    runStreamCall agent user_input
      { appendUserTurn st user_input with clientOpen := true } =
      agent user_input st.messages ∧
    messageHistoryArg (appendUserTurn st user_input) ++
      [Msg.request [Part.userPrompt user_input]] =
      (appendUserTurn st user_input).messages ∧
    ((appendUserTurn st user_input).messages).getLast? =
      some (Msg.request [Part.userPrompt user_input]) := by
  refine ⟨?_, ?_, ?_⟩
  · show agent user_input
      ((st.messages ++ [Msg.request [Part.userPrompt user_input]]).dropLast) =
      agent user_input st.messages
    rw [List.dropLast_concat]
  · show (st.messages ++
      [Msg.request [Part.userPrompt user_input]]).dropLast ++
      [Msg.request [Part.userPrompt user_input]] =
      (appendUserTurn st user_input).messages
    rw [List.dropLast_concat]
    rfl
  · exact List.getLast?_concat st.messages

/-- Claim C7: the per-run HTTP client opened when the run's `Deps` are
built is closed on every exit path of `run_agent_with_streaming` — the
agent argument ranges over completing and raising runs alike, and in
both cases the `finally` block closes the client. -/
theorem http_client_closed_after_run
    (agent : String → List Msg → RunOutcome) (user_input : String)
    (st : UiState) :
    ((run_agent_with_streaming agent user_input st).2).clientOpen = false :=
  rfl

/-- Claim C8: when the run raises, the exception propagates as a
run-level failure, the partially streamed buffer is discarded, and the
session history gains no assistant Turn from that run — it is exactly
the prior history plus the already-appended user Turn. -/
theorem failed_run_appends_no_assistant_turn
    (agent : String → List Msg → RunOutcome) (st : UiState)
    (user_input t : String)
    (h : agent user_input st.messages = RunOutcome.raised t) :
    (handle_user_input agent st user_input).1 =
      Except.error "run-level failure" ∧
    ((handle_user_input agent st user_input).2).messages =
      st.messages ++ [Msg.request [Part.userPrompt user_input]] ∧
    assistantTurnCount ((handle_user_input agent st user_input).2).messages =
      assistantTurnCount st.messages := by
  have heq := handle_raised_eq agent st user_input t h
  rw [heq]
  refine ⟨rfl, rfl, ?_⟩
  show assistantTurnCount
    (st.messages ++ [Msg.request [Part.userPrompt user_input]]) =
    assistantTurnCount st.messages
  rw [assistantTurnCount_append]
  have h0 : assistantTurnCount [Msg.request [Part.userPrompt user_input]] = 0 :=
    rfl
  omega

/-- Claim C8, witness at a concrete raising run. -/
theorem failed_run_appends_no_assistant_turn_witness :
    agentFail "hi" initState.messages = RunOutcome.raised "oops" ∧
    ((handle_user_input agentFail initState "hi").1 =
        Except.error "run-level failure" ∧
      ((handle_user_input agentFail initState "hi").2).messages =
        initState.messages ++ [Msg.request [Part.userPrompt "hi"]] ∧
      assistantTurnCount
          ((handle_user_input agentFail initState "hi").2).messages =
        assistantTurnCount initState.messages) :=
  ⟨rfl, failed_run_appends_no_assistant_turn agentFail initState "hi" "oops"
    rfl⟩

end RedditAgent
